import Mathlib

/-!
Verification development for the headless RPG game engine (`engine.py`).

The engine is a state machine (`RPGGame`) composing three collaborator
calls — an action interpreter, a narrator and a suggestion generator,
all backed by a text-completion service — with a dice mechanic.

The embedding below translates `engine.py` into Lean.  Effects are made
explicit:
* the value drawn by `random.randint(1, 10)` is passed as an argument;
* a collaborator call is represented by its observable outcome: either
  it raised an exception, or it returned a string, which `json.loads`
  either rejects or parses into a JSON value (`LLMOutcome`);
* the narrator collaborator is a function from the arguments `narrate`
  receives to `Except Unit String` (`.error` = the call raised);
* mutation of the `RPGGame` object becomes explicit state passing: each
  method returns the post-state together with an outcome, where the
  outcome `exn` means a Python exception escaped the method (the
  post-state then records the mutations performed before the raise).
-/

namespace RPGEngine

/-- JSON values as produced by `json.loads`.  Numbers are modelled as
integers (every numeric field the engine reads is integral). -/
inductive JValue where
  | null
  | bool (b : Bool)
  | num (n : Int)
  | str (s : String)
  | arr (xs : List JValue)
  | obj (kvs : List (String × JValue))
deriving Inhabited

/-- Python truthiness (`bool(v)`) of a JSON value. -/
def jTruthy : JValue → Bool
  | .null => false
  | .bool b => b
  | .num n => decide (n ≠ 0)
  | .str s => decide (s ≠ "")
  | .arr xs => !xs.isEmpty
  | .obj kvs => !kvs.isEmpty

/-- Python truthiness of `self.character` / `self.last_action`
(`None` and the empty string are falsy). -/
def optStrTruthy : Option String → Bool
  | none => false
  | some s => decide (s ≠ "")

/-- `d.get(k)` on a parsed JSON object. -/
def jLookup (kvs : List (String × JValue)) (k : String) : Option JValue :=
  kvs.lookup k

/-- Python `int(v)` applied to a value read from JSON: `none` means the
conversion raises.  (String conversion is approximated by decimal
parsing of the trimmed string.) -/
def pyInt : JValue → Option Int
  | .num n => some n
  | .bool b => some (if b then 1 else 0)
  | .str s => s.trim.toInt?
  | _ => none

/-- One of the three character stats. -/
inductive StatName where
  | mind
  | body
  | spirit
deriving DecidableEq

/-- The stat block installed by `start`. -/
structure Stats where
  mind : Int
  body : Int
  spirit : Int
deriving DecidableEq

/-- `self.stats[stat]`. -/
def Stats.get (st : Stats) : StatName → Int
  | .mind => st.mind
  | .body => st.body
  | .spirit => st.spirit

/-- `roll_check` (engine.py:16).  The value drawn by
`random.randint(1, 10)` is the explicit first argument. -/
def roll_check (roll : Int) (stat_value : Int) (difficulty : Int) : Bool × Int :=
  (decide (roll + stat_value - difficulty > 5), roll)

/-- Observable outcome of one call to the text-completion collaborator
followed by `json.loads`: the call raised, or it returned a string that
fails to parse, or it returned a string parsing to a JSON value. -/
inductive LLMOutcome where
  | raise
  | ret (parsed : Option JValue)

/-- The message `"That's not possible."`. -/
def notPossibleMsg : String :=
  "That" ++ String.singleton (Char.ofNat 39) ++ "s not possible."

/-- Result of `interpret_action`: the call raised, or it returned an
invalid verdict `{"valid": False, "reason": reason}`, or it returned a
valid interpretation (of which `take_action` reads exactly the `stat`,
`difficulty` and `lethal` fields; `lethal` is stored unconverted, hence
a `JValue`). -/
inductive InterpOut where
  | exn
  | invalid (reason : JValue)
  | valid (stat : StatName) (difficulty : Int) (lethal : JValue)

/-- `interpret_action` (engine.py:58).  The `call_llm` invocation sits
*outside* the `try` block, so a collaborator exception propagates
(`.raise ↦ .exn`); everything after it is inside `try`, and any
exception there is converted to the default
`{"valid": True, "stat": "body", "difficulty": 3, "lethal": False}`:
a `json.loads` failure, a non-dict parse result (`result.get` raises
`AttributeError`), or `int(result.get("difficulty", 3))` raising. -/
def interpret_action (response : LLMOutcome) : InterpOut :=
  match response with
  | .raise => .exn
  | .ret none => .valid .body 3 (.bool false)
  | .ret (some data) =>
    match data with
    | .obj kvs =>
      if !(jTruthy ((jLookup kvs "valid").getD (.bool true))) then
        .invalid ((jLookup kvs "reason").getD (.str notPossibleMsg))
      else
        let stat : StatName :=
          match jLookup kvs "stat" with
          | some (.str s) =>
            if s = "mind" then .mind
            else if s = "body" then .body
            else if s = "spirit" then .spirit
            else .body
          | _ => .body
        match pyInt ((jLookup kvs "difficulty").getD (.num 3)) with
        | none => .valid .body 3 (.bool false)
        | some d => .valid stat (max 1 (min 5 d)) ((jLookup kvs "lethal").getD (.bool false))
    | _ => .valid .body 3 (.bool false)

/-- The single-quote character, used by Python `repr` of strings. -/
def sq : String := String.singleton (Char.ofNat 39)

/-- Python `repr` of a JSON-derived value (string escaping elided:
nested strings are wrapped in single quotes verbatim). -/
def pyRepr : JValue → String
  | .null => "None"
  | .bool true => "True"
  | .bool false => "False"
  | .num n => toString n
  | .str s => sq ++ s ++ sq
  | .arr xs => "[" ++ String.intercalate ", " (xs.attach.map (fun x => pyRepr x.1)) ++ "]"
  | .obj kvs =>
    "\x7b" ++
      String.intercalate ", "
        (kvs.attach.map (fun p => sq ++ p.1.1 ++ sq ++ ": " ++ pyRepr p.1.2)) ++
    "\x7d"
decreasing_by
  · obtain ⟨x, hx⟩ := x
    have h1 := List.sizeOf_lt_of_mem hx
    simp only [JValue.arr.sizeOf_spec]
    omega
  · obtain ⟨⟨k, v⟩, hp⟩ := p
    have h1 := List.sizeOf_lt_of_mem hp
    simp only [Prod.mk.sizeOf_spec] at h1
    simp only [JValue.obj.sizeOf_spec]
    omega

/-- Python `str` of a JSON-derived value: a string is itself, anything
else renders via `repr`. -/
def pyStr : JValue → String
  | .str s => s
  | v => pyRepr v

/-- The constant fallback suggestion list (engine.py:134). -/
def fallbackSuggestions : List String :=
  ["Continue forward", "Look around carefully", "Wait and observe"]

/-- The last resort of the dict branch of `generate_suggestions`
(engine.py:153-158): any dict with 3 or more values yields its first
three values stringified, otherwise the fallback. -/
def suggestionsFromValues (kvs : List (String × JValue)) : List String :=
  if 3 ≤ kvs.length then ((kvs.map Prod.snd).take 3).map pyStr
  else fallbackSuggestions

/-- The response-normalization step of `generate_suggestions`
(engine.py:139-158), applied to the parsed JSON value. -/
def normalizeSuggestions (data : JValue) : List String :=
  match data with
  | .arr xs =>
    if 3 ≤ xs.length then (xs.take 3).map pyStr
    else fallbackSuggestions
  | .obj kvs =>
    if (jLookup kvs "0").isSome && (jLookup kvs "1").isSome && (jLookup kvs "2").isSome then
      [pyStr ((jLookup kvs "0").getD .null),
       pyStr ((jLookup kvs "1").getD .null),
       pyStr ((jLookup kvs "2").getD .null)]
    else
      match jLookup kvs "suggestions" with
      | some (.arr sug) =>
        if 3 ≤ sug.length then (sug.take 3).map pyStr
        else suggestionsFromValues kvs
      | _ => suggestionsFromValues kvs
  | _ => fallbackSuggestions

/-- `generate_suggestions` (engine.py:120).  The `call_llm` invocation
sits outside the `try` block, so a collaborator exception propagates;
a `json.loads` failure is caught and yields the fallback; a parsed
value goes through normalization. -/
def generate_suggestions (response : LLMOutcome) : Except Unit (List String) :=
  match response with
  | .raise => .error ()
  | .ret none => .ok fallbackSuggestions
  | .ret (some data) => .ok (normalizeSuggestions data)

/-- The record `self.last_roll` built by `take_action`
(engine.py:249-261). -/
structure RollInfo where
  action : String
  stat : StatName
  stat_value : Int
  difficulty : Int
  lethal : JValue
  roll : Int
  total : Int
  success : Bool
  died : Bool
  forced : Bool
  miraculous : Bool

/-- The arguments `narrate` (engine.py:77) receives from `take_action`;
the narrator collaborator is a function from these to the prose (or an
exception). -/
structure NarrateArgs where
  context : String
  character : String
  stats : Stats
  action : String
  stat : StatName
  difficulty : Int
  success : Bool
  died : Bool
  forced : Bool

/-- The outcome label and special note `narrate` computes before
prompting (engine.py:81-92). -/
def narrateOutcomeLabel (success died forced : Bool) : String :=
  if died then "DEATH"
  else if forced && success then "MIRACULOUS"
  else if forced && !success then "FAILURE"
  else if success then "SUCCESS"
  else "FAILURE"

/-- The mutable fields of an `RPGGame` instance (engine.py:166-174). -/
structure GameState where
  character : Option String
  stats : Option Stats
  context : String
  alive : Bool
  history : List (String × Option RollInfo)
  last_roll : Option RollInfo
  last_action : Option String
  last_invalid : Bool

/-- `RPGGame.__init__` (engine.py:166). -/
def GameState.init : GameState :=
  { character := none, stats := none, context := "", alive := true,
    history := [], last_roll := none, last_action := none, last_invalid := false }

/-- Outcome of one `take_action` call: an error dict, an invalid-action
dict, a normal result dict, or a Python exception escaping the call. -/
inductive TAOutcome where
  | err (msg : String)
  | invalid (reason : JValue) (action : String)
  | ok (status : String) (roll : RollInfo) (narrative : String)
       (suggestions : Option (List String))
  | exn

/-- The interpretation-selection step of `take_action`
(engine.py:210-217): force replay, god mode, or the interpreter. -/
def chooseInterpretation (g : GameState) (action : String) (force god_mode : Bool)
    (interpResp : LLMOutcome) : String × InterpOut :=
  if force && optStrTruthy g.last_action && g.last_invalid then
    (g.last_action.getD "", .valid .spirit 5 (.bool false))
  else if god_mode then
    (action, .valid .spirit 1 (.bool false))
  else
    (action, interpret_action interpResp)

/-- The `self.last_roll` record built at engine.py:240-261: the dice
result (or the god-mode override `success, roll = True, 10`) together
with the resolved action, stat, difficulty, lethality, death and
miraculous flags. -/
def turnRollInfo (act : String) (force god_mode : Bool) (roll : Int)
    (stat_value : Int) (stat : StatName) (difficulty : Int) (lethal : JValue) :
    RollInfo :=
  let sr : Bool × Int := if god_mode then (true, 10) else roll_check roll stat_value difficulty
  { action := act, stat := stat, stat_value := stat_value, difficulty := difficulty,
    lethal := lethal, roll := sr.2, total := sr.2 + stat_value - difficulty,
    success := sr.1, died := jTruthy lethal && !sr.1, forced := force,
    miraculous := (force || god_mode) && sr.1 }

/-- The valid-interpretation tail of `take_action` (engine.py:230-282):
clear `last_invalid`, look up the stat value, push the undo frame, roll
(or take the god-mode override), build `last_roll`, narrate, overwrite
`context`, apply death, and optionally attach suggestions.  Mutations
already performed persist in the returned state when a collaborator
raises. -/
def resolveTurn (g : GameState) (act : String) (force god_mode with_suggestions : Bool)
    (roll : Int) (narr : NarrateArgs → Except Unit String) (suggResp : LLMOutcome)
    (stat : StatName) (difficulty : Int) (lethal : JValue) : GameState × TAOutcome :=
  let g1 : GameState := { g with last_invalid := false }
  match g1.stats with
  | none => (g1, .exn)
  | some st =>
    let stat_value := st.get stat
    let g2 : GameState := { g1 with history := g1.history ++ [(g1.context, g1.last_roll)] }
    let sr : Bool × Int := if god_mode then (true, 10) else roll_check roll stat_value difficulty
    let died : Bool := jTruthy lethal && !sr.1
    let ri : RollInfo := turnRollInfo act force god_mode roll stat_value stat difficulty lethal
    let g3 : GameState := { g2 with last_roll := some ri }
    match narr { context := g2.context, character := g.character.getD "", stats := st,
                 action := act, stat := stat, difficulty := difficulty,
                 success := sr.1, died := died, forced := force || god_mode } with
    | .error _ => (g3, .exn)
    | .ok ntext =>
      let g4 : GameState := { g3 with context := ntext }
      let g5 : GameState := if died then { g4 with alive := false } else g4
      let status : String := if died then "death" else if sr.1 then "success" else "failure"
      if with_suggestions && g5.alive then
        match generate_suggestions suggResp with
        | .error _ => (g5, .exn)
        | .ok sugg => (g5, .ok status ri ntext (some sugg))
      else
        (g5, .ok status ri ntext none)

/-- `RPGGame.take_action` (engine.py:203). -/
def take_action (g : GameState) (action : String) (force god_mode with_suggestions : Bool)
    (interpResp : LLMOutcome) (roll : Int) (narr : NarrateArgs → Except Unit String)
    (suggResp : LLMOutcome) : GameState × TAOutcome :=
  if !g.alive then (g, .err "Game over - character is dead")
  else if !(optStrTruthy g.character) then (g, .err "Game not started - call start() first")
  else
    match chooseInterpretation g action force god_mode interpResp with
    | (_, .exn) => (g, .exn)
    | (act, .invalid reason) =>
      ({ g with last_action := some act, last_invalid := true }, .invalid reason act)
    | (act, .valid stat difficulty lethal) =>
      resolveTurn g act force god_mode with_suggestions roll narr suggResp
        stat difficulty lethal

/-- Outcome of one `start` call. -/
inductive StartOut where
  | err (msg : String)
  | ok (narrative : String) (suggestions : Option (List String))
  | exn

/-- `RPGGame.start` (engine.py:176).  `character` and `stats` are
assigned before `opening_scene` is invoked, so they persist if the
opening-scene collaborator raises. -/
def start (g : GameState) (character : String) (mind body spirit : Int)
    (openingResp : Except Unit String) (suggResp : LLMOutcome)
    (with_suggestions : Bool) : GameState × StartOut :=
  if ¬ (1 ≤ mind ∧ mind ≤ 5 ∧ 1 ≤ body ∧ body ≤ 5 ∧ 1 ≤ spirit ∧ spirit ≤ 5) then
    (g, .err "Each stat must be between 1 and 5")
  else if mind + body + spirit ≠ 9 then
    (g, .err ("Stats must total 9, got " ++ toString (mind + body + spirit)))
  else
    let g1 : GameState :=
      { g with character := some character, stats := some ⟨mind, body, spirit⟩ }
    match openingResp with
    | .error _ => (g1, .exn)
    | .ok scene =>
      let g2 : GameState :=
        { g1 with context := scene, alive := true, history := [], last_roll := none }
      if with_suggestions then
        match generate_suggestions suggResp with
        | .error _ => (g2, .exn)
        | .ok sugg => (g2, .ok scene (some sugg))
      else
        (g2, .ok scene none)

/-- The fields of the dict returned by `RPGGame.get_state`
(engine.py:284). -/
structure StateSnapshot where
  character : Option String
  stats : Option Stats
  alive : Bool
  narrative : String
  last_roll : Option RollInfo
  can_undo : Bool
  can_force : Bool

/-- `RPGGame.get_state` (engine.py:284). -/
def get_state (g : GameState) : StateSnapshot :=
  { character := g.character, stats := g.stats, alive := g.alive,
    narrative := g.context, last_roll := g.last_roll,
    can_undo := decide (0 < g.history.length),
    can_force := g.last_invalid && g.last_action.isSome }

/-- Outcome of one `undo` call. -/
inductive UndoOut where
  | err (msg : String)
  | ok (narrative : String) (last_roll : Option RollInfo)

/-- `RPGGame.undo` (engine.py:296).  `history.pop()` removes the last
element of the Python list. -/
def undo (g : GameState) : GameState × UndoOut :=
  match g.history.getLast? with
  | none => (g, .err "Nothing to undo")
  | some (c, r) =>
    ({ g with context := c, last_roll := r, history := g.history.dropLast, alive := true },
     .ok c r)

/-- A started game used by concrete witnesses: the character
`"a goblin"` with stats (3, 3, 3) in an opening scene. -/
def g0 : GameState :=
  { character := some "a goblin", stats := some ⟨3, 3, 3⟩, context := "scene0",
    alive := true, history := [], last_roll := none, last_action := none,
    last_invalid := false }

/-- An interpreter response parsing to a valid body check of
difficulty 2. -/
def iBody2 : LLMOutcome :=
  .ret (some (.obj [("stat", .str "body"), ("difficulty", .num 2)]))

/-- An interpreter response parsing to an invalid verdict with no
reason field. -/
def iInvalid : LLMOutcome := .ret (some (.obj [("valid", .bool false)]))

/-- A narrator collaborator that always answers `"scene1"`. -/
def narrOk1 : NarrateArgs → Except Unit String := fun _ => .ok "scene1"

/-- A narrator collaborator that always raises. -/
def narrRaise : NarrateArgs → Except Unit String := fun _ => .error ()

/-- C1: for every statValue and difficulty, the dice check succeeds if
and only if roll + statValue - difficulty > 5 for the drawn roll in
1..10; in particular a total of exactly 5 fails and a total of exactly
6 succeeds. -/
theorem roll_check_strict_boundary (stat_value difficulty roll : Int)
    (h1 : 1 ≤ roll) (h2 : roll ≤ 10) :
    ((roll_check roll stat_value difficulty).1 = true ↔
        roll + stat_value - difficulty > 5)
    ∧ (roll + stat_value - difficulty = 5 →
        (roll_check roll stat_value difficulty).1 = false)
    ∧ (roll + stat_value - difficulty = 6 →
        (roll_check roll stat_value difficulty).1 = true) := by
  refine ⟨by simp [roll_check], ?_, ?_⟩ <;> intro h <;> simp [roll_check, h]

/-- Witness for C1 at stat_value = 3, difficulty = 5, roll = 7. -/
theorem roll_check_strict_boundary_witness :
    (1 ≤ (7 : Int) ∧ (7 : Int) ≤ 10)
    ∧ (((roll_check 7 3 5).1 = true ↔ (7 : Int) + 3 - 5 > 5)
       ∧ ((7 : Int) + 3 - 5 = 5 → (roll_check 7 3 5).1 = false)
       ∧ ((7 : Int) + 3 - 5 = 6 → (roll_check 7 3 5).1 = true)) :=
  ⟨by norm_num, roll_check_strict_boundary 3 5 7 (by norm_num) (by norm_num)⟩

/-- C2 counterexample: when the text-completion collaborator raises,
`interpret_action` propagates the exception to its caller instead of
returning the safe default interpretation. -/
theorem interpret_action_collab_exn_propagates :
    interpret_action .raise = .exn
    ∧ InterpOut.exn ≠ .valid .body 3 (.bool false) :=
  ⟨rfl, fun h => nomatch h⟩

/-- C2 (amended): once the collaborator has *returned*, interpret_action
never errors: a `json.loads` failure, a non-dict parse result, and an
unconvertible difficulty on a valid dict all yield the safe default
`{valid: true, stat: body, difficulty: 3, lethal: false}`; but an
exception raised by the collaborator itself propagates (see the
counterexample). -/
theorem interpret_action_fail_open (p : Option JValue) :
    interpret_action (.ret p) ≠ .exn
    ∧ interpret_action (.ret none) = .valid .body 3 (.bool false)
    ∧ (∀ v : JValue, (∀ kvs, v ≠ .obj kvs) →
        interpret_action (.ret (some v)) = .valid .body 3 (.bool false))
    ∧ (∀ kvs, jTruthy ((jLookup kvs "valid").getD (.bool true)) = true →
        pyInt ((jLookup kvs "difficulty").getD (.num 3)) = none →
        interpret_action (.ret (some (.obj kvs))) = .valid .body 3 (.bool false)) := by
  refine ⟨?_, rfl, ?_, ?_⟩
  · cases p with
    | none => exact fun h => nomatch h
    | some v =>
      cases v with
      | obj kvs =>
        simp only [interpret_action]
        split
        · exact fun h => nomatch h
        · split
          · exact fun h => nomatch h
          · exact fun h => nomatch h
      | null => exact fun h => nomatch h
      | bool b => exact fun h => nomatch h
      | num n => exact fun h => nomatch h
      | str s => exact fun h => nomatch h
      | arr xs => exact fun h => nomatch h
  · intro v hv
    cases v with
    | obj kvs => exact absurd rfl (hv kvs)
    | null => rfl
    | bool b => rfl
    | num n => rfl
    | str s => rfl
    | arr xs => rfl
  · intro kvs hvalid hd
    simp [interpret_action, hvalid, hd]

/-- Witness for C2 (amended) at a malformed (non-dict) response. -/
theorem interpret_action_fail_open_witness :
    interpret_action (.ret (some (.str "oops"))) = .valid .body 3 (.bool false) :=
  (interpret_action_fail_open (some (.str "oops"))).2.2.1 (.str "oops")
    (fun kvs h => JValue.noConfusion h)

/-- Helper: on the valid-interpretation path the undo frame pushed is
exactly the pre-call context and roll record, whatever the narrator and
suggestion collaborators do. -/
theorem resolveTurn_history (g : GameState) (act : String)
    (force god ws : Bool) (roll : Int) (narr : NarrateArgs → Except Unit String)
    (suggResp : LLMOutcome) (stat : StatName) (d : Int) (lethal : JValue)
    (st : Stats) (hstats : g.stats = some st) :
    (resolveTurn g act force god ws roll narr suggResp stat d lethal).1.history
      = g.history ++ [(g.context, g.last_roll)] := by
  obtain ⟨ch, sts, ctx, al, hist, lr, la, li⟩ := g
  simp only at hstats
  subst hstats
  simp only [resolveTurn]
  repeat' split
  all_goals rfl

/-- Helper: on the valid-interpretation path `last_roll` is set to the
`turnRollInfo` record, whatever the narrator and suggestion
collaborators do. -/
theorem resolveTurn_last_roll (g : GameState) (act : String)
    (force god ws : Bool) (roll : Int) (narr : NarrateArgs → Except Unit String)
    (suggResp : LLMOutcome) (stat : StatName) (d : Int) (lethal : JValue)
    (st : Stats) (hstats : g.stats = some st) :
    (resolveTurn g act force god ws roll narr suggResp stat d lethal).1.last_roll
      = some (turnRollInfo act force god roll (st.get stat) stat d lethal) := by
  obtain ⟨ch, sts, ctx, al, hist, lr, la, li⟩ := g
  simp only at hstats
  subst hstats
  simp only [resolveTurn]
  repeat' split
  all_goals rfl

/-- C3 counterexample: starting from `g0` (empty history), a valid
interpretation followed by a raising narrator leaves the history one
frame longer although the exception propagates — the GameState is not
exactly as it was before the call. -/
theorem take_action_narrator_exn_history_grows :
    (take_action g0 "attack" false false false (.ret none) 7
        narrRaise (.ret none)).1.history.length = 1
    ∧ g0.history.length = 0
    ∧ (take_action g0 "attack" false false false (.ret none) 7
        narrRaise (.ret none)).2 = .exn :=
  ⟨rfl, rfl, rfl⟩

/-- C3 (amended): if the Narrator call raises for a valid
interpretation, the exception propagates to the caller and the context
and alive flag are unchanged, but the state is not exactly as before:
the history has gained exactly one frame (the pre-call context and roll
record), and `last_invalid` has been cleared. -/
theorem take_action_narrator_exn_state (g : GameState) (action : String)
    (ws : Bool) (interpResp suggResp : LLMOutcome) (roll : Int) (st : Stats)
    (stat : StatName) (d : Int) (lethal : JValue)
    (halive : g.alive = true) (hchar : optStrTruthy g.character = true)
    (hstats : g.stats = some st)
    (hinterp : interpret_action interpResp = .valid stat d lethal) :
    (take_action g action false false ws interpResp roll narrRaise suggResp).2 = .exn
    ∧ (take_action g action false false ws interpResp roll narrRaise suggResp).1.context
        = g.context
    ∧ (take_action g action false false ws interpResp roll narrRaise suggResp).1.alive
        = g.alive
    ∧ (take_action g action false false ws interpResp roll narrRaise suggResp).1.history
        = g.history ++ [(g.context, g.last_roll)]
    ∧ (take_action g action false false ws interpResp roll narrRaise suggResp).1.last_invalid
        = false := by
  have hta : take_action g action false false ws interpResp roll narrRaise suggResp
      = resolveTurn g action false false ws roll narrRaise suggResp stat d lethal := by
    simp [take_action, halive, hchar, chooseInterpretation, hinterp]
  rw [hta]
  obtain ⟨ch, sts, ctx, al, hist, lr, la, li⟩ := g
  simp only at hstats
  subst hstats
  exact ⟨rfl, rfl, rfl, rfl, rfl⟩

/-- Witness for C3 (amended) at `g0` with an unparseable interpreter
response (safe-default body check). -/
theorem take_action_narrator_exn_state_witness :
    (take_action g0 "attack" false false false (.ret none) 7 narrRaise (.ret none)).2 = .exn
    ∧ (take_action g0 "attack" false false false (.ret none) 7 narrRaise
        (.ret none)).1.context = g0.context
    ∧ (take_action g0 "attack" false false false (.ret none) 7 narrRaise
        (.ret none)).1.alive = g0.alive
    ∧ (take_action g0 "attack" false false false (.ret none) 7 narrRaise
        (.ret none)).1.history = g0.history ++ [(g0.context, g0.last_roll)]
    ∧ (take_action g0 "attack" false false false (.ret none) 7 narrRaise
        (.ret none)).1.last_invalid = false :=
  take_action_narrator_exn_state g0 "attack" false (.ret none) (.ret none) 7
    ⟨3, 3, 3⟩ .body 3 (.bool false) rfl rfl rfl rfl

/-- C4: an invalid interpretation makes `take_action` return
`{status: "invalid", reason}` and mutate only `last_action` and
`last_invalid`; hence two consecutive invalid actions leave the
context, history and alive flag exactly as they were, and `can_force`
is true after the first. -/
theorem take_action_invalid_noop (g : GameState) (a1 a2 : String)
    (ws1 ws2 : Bool) (i1 i2 s1 s2 : LLMOutcome) (r1 r2 : Int)
    (n1 n2 : NarrateArgs → Except Unit String) (q1 q2 : JValue)
    (halive : g.alive = true) (hchar : optStrTruthy g.character = true)
    (h1 : interpret_action i1 = .invalid q1)
    (h2 : interpret_action i2 = .invalid q2) :
    take_action g a1 false false ws1 i1 r1 n1 s1
      = ({ g with last_action := some a1, last_invalid := true }, .invalid q1 a1)
    ∧ take_action { g with last_action := some a1, last_invalid := true }
        a2 false false ws2 i2 r2 n2 s2
      = ({ g with last_action := some a2, last_invalid := true }, .invalid q2 a2)
    ∧ (get_state { g with last_action := some a1, last_invalid := true }).can_force
        = true := by
  refine ⟨?_, ?_, ?_⟩
  · simp [take_action, halive, hchar, chooseInterpretation, h1]
  · simp [take_action, halive, hchar, chooseInterpretation, h2]
  · simp [get_state]

/-- Witness for C4: two consecutive rejected actions from `g0`. -/
theorem take_action_invalid_noop_witness :
    take_action g0 "gibberish" false false false iInvalid 7 narrOk1 (.ret none)
      = ({ g0 with last_action := some "gibberish", last_invalid := true },
         .invalid (.str notPossibleMsg) "gibberish")
    ∧ take_action { g0 with last_action := some "gibberish", last_invalid := true }
        "gibberish" false false false iInvalid 7 narrOk1 (.ret none)
      = ({ g0 with last_action := some "gibberish", last_invalid := true },
         .invalid (.str notPossibleMsg) "gibberish")
    ∧ (get_state { g0 with last_action := some "gibberish", last_invalid := true }).can_force
        = true :=
  take_action_invalid_noop g0 "gibberish" "gibberish" false false iInvalid iInvalid
    (.ret none) (.ret none) 7 7 narrOk1 narrOk1 (.str notPossibleMsg)
    (.str notPossibleMsg) rfl rfl rfl rfl

/-- Helper: the valid-interpretation tail never produces an error
dict — its abnormal exits are exceptions, not `{"error": ...}`. -/
theorem resolveTurn_ne_err (g : GameState) (act : String)
    (force god ws : Bool) (roll : Int) (narr : NarrateArgs → Except Unit String)
    (suggResp : LLMOutcome) (stat : StatName) (d : Int) (lethal : JValue)
    (msg : String) :
    (resolveTurn g act force god ws roll narr suggResp stat d lethal).2 ≠ .err msg := by
  simp only [resolveTurn]
  repeat' split
  all_goals exact fun h => nomatch h

/-- C5 counterexample: from `g0` (where `last_invalid` is false, so
there is nothing to force), `take_action` with `force = true` returns a
normal success result — not an error — and pushes a history frame: the
state does not stay unchanged. -/
theorem take_action_force_nothing_cex :
    (take_action g0 "jump" true false false iBody2 7 narrOk1 (.ret none)).2
      = .ok "success" ⟨"jump", .body, 3, 2, .bool false, 7, 8, true, false, true, true⟩
          "scene1" none
    ∧ (take_action g0 "jump" true false false iBody2 7 narrOk1 (.ret none)).1.history.length
        = 1
    ∧ g0.history.length = 0
    ∧ g0.last_invalid = false :=
  ⟨rfl, rfl, rfl, rfl⟩

/-- C5 (amended): `take_action` with `force = true` and nothing to
force is NOT a reported precondition error: the force flag is simply
ignored for interpretation selection, the action goes to the
interpreter as normal, the call never returns an error dict, and on a
valid interpretation the state is mutated as in a normal turn. -/
theorem take_action_force_nothing_falls_through (g : GameState) (action : String)
    (ws : Bool) (interpResp suggResp : LLMOutcome) (roll : Int)
    (narr : NarrateArgs → Except Unit String) (st : Stats)
    (halive : g.alive = true) (hchar : optStrTruthy g.character = true)
    (hstats : g.stats = some st)
    (hnothing : (optStrTruthy g.last_action && g.last_invalid) = false) :
    chooseInterpretation g action true false interpResp
      = (action, interpret_action interpResp)
    ∧ (∀ msg, (take_action g action true false ws interpResp roll narr suggResp).2
        ≠ .err msg)
    ∧ (∀ stat d lethal, interpret_action interpResp = .valid stat d lethal →
        (take_action g action true false ws interpResp roll narr suggResp).1.history
          = g.history ++ [(g.context, g.last_roll)]) := by
  have hch : chooseInterpretation g action true false interpResp
      = (action, interpret_action interpResp) := by
    simp [chooseInterpretation, hnothing]
  refine ⟨hch, ?_, ?_⟩
  · intro msg
    cases hi : interpret_action interpResp with
    | exn => simp [take_action, halive, hchar, hch, hi]
    | invalid q => simp [take_action, halive, hchar, hch, hi]
    | valid stat d lethal =>
      have h1 : take_action g action true false ws interpResp roll narr suggResp
          = resolveTurn g action true false ws roll narr suggResp stat d lethal := by
        simp [take_action, halive, hchar, hch, hi]
      rw [h1]
      exact resolveTurn_ne_err g action true false ws roll narr suggResp stat d lethal msg
  · intro stat d lethal hv
    have h1 : take_action g action true false ws interpResp roll narr suggResp
        = resolveTurn g action true false ws roll narr suggResp stat d lethal := by
      simp [take_action, halive, hchar, hch, hv]
    rw [h1]
    exact resolveTurn_history g action true false ws roll narr suggResp stat d lethal st hstats

/-- Witness for C5 (amended): the concrete fall-through call of the
counterexample mutates history as a normal turn. -/
theorem take_action_force_nothing_falls_through_witness :
    (take_action g0 "jump" true false false iBody2 7 narrOk1 (.ret none)).1.history
      = g0.history ++ [(g0.context, g0.last_roll)] :=
  (take_action_force_nothing_falls_through g0 "jump" false iBody2 (.ret none) 7 narrOk1
    ⟨3, 3, 3⟩ rfl rfl rfl rfl).2.2 .body 2 (.bool false) rfl

/-- The remembered state after an invalid `take_action("fly to the
moon")` from `g0`. -/
def gInv : GameState :=
  { g0 with last_action := some "fly to the moon", last_invalid := true }

/-- C6: with an invalid action remembered, `take_action(Y, force=true)`
resolves the literal remembered string (not Y) with the synthesized
spirit check of difficulty 5 and lethal false, ignoring the interpreter
entirely. -/
theorem take_action_force_replays_remembered (g : GameState) (y1 y2 : String)
    (ws : Bool) (i1 i2 suggResp : LLMOutcome) (roll : Int)
    (narr : NarrateArgs → Except Unit String) (x : String) (st : Stats)
    (halive : g.alive = true) (hchar : optStrTruthy g.character = true)
    (hla : g.last_action = some x) (hx : x ≠ "") (hinv : g.last_invalid = true)
    (hstats : g.stats = some st) :
    take_action g y1 true false ws i1 roll narr suggResp
      = take_action g y2 true false ws i2 roll narr suggResp
    ∧ chooseInterpretation g y1 true false i1 = (x, .valid .spirit 5 (.bool false))
    ∧ (take_action g y1 true false ws i1 roll narr suggResp).1.last_roll
        = some (turnRollInfo x true false roll (st.get .spirit) .spirit 5 (.bool false))
    ∧ (turnRollInfo x true false roll (st.get .spirit) .spirit 5 (.bool false)).action = x
    ∧ (turnRollInfo x true false roll (st.get .spirit) .spirit 5 (.bool false)).stat
        = .spirit
    ∧ (turnRollInfo x true false roll (st.get .spirit) .spirit 5 (.bool false)).difficulty
        = 5
    ∧ (turnRollInfo x true false roll (st.get .spirit) .spirit 5 (.bool false)).lethal
        = .bool false := by
  have hch1 : chooseInterpretation g y1 true false i1
      = (x, .valid .spirit 5 (.bool false)) := by
    simp [chooseInterpretation, hla, hinv, optStrTruthy, hx]
  have hch2 : chooseInterpretation g y2 true false i2
      = (x, .valid .spirit 5 (.bool false)) := by
    simp [chooseInterpretation, hla, hinv, optStrTruthy, hx]
  have ht1 : take_action g y1 true false ws i1 roll narr suggResp
      = resolveTurn g x true false ws roll narr suggResp .spirit 5 (.bool false) := by
    simp [take_action, halive, hchar, hch1]
  have ht2 : take_action g y2 true false ws i2 roll narr suggResp
      = resolveTurn g x true false ws roll narr suggResp .spirit 5 (.bool false) := by
    simp [take_action, halive, hchar, hch2]
  refine ⟨ht1.trans ht2.symm, hch1, ?_, rfl, rfl, rfl, rfl⟩
  rw [ht1]
  exact resolveTurn_last_roll g x true false ws roll narr suggResp .spirit 5
    (.bool false) st hstats

/-- Witness for C6: replay of the remembered `"fly to the moon"` from
`gInv` while the caller submits `"something else"`. -/
theorem take_action_force_replays_remembered_witness :
    take_action gInv "something else" true false false iBody2 4 narrOk1 (.ret none)
      = take_action gInv "other" true false false iInvalid 4 narrOk1 (.ret none)
    ∧ chooseInterpretation gInv "something else" true false iBody2
        = ("fly to the moon", .valid .spirit 5 (.bool false))
    ∧ (take_action gInv "something else" true false false iBody2 4 narrOk1
        (.ret none)).1.last_roll
        = some (turnRollInfo "fly to the moon" true false 4 ((⟨3, 3, 3⟩ : Stats).get .spirit)
            .spirit 5 (.bool false))
    ∧ (turnRollInfo "fly to the moon" true false 4 ((⟨3, 3, 3⟩ : Stats).get .spirit)
        .spirit 5 (.bool false)).action = "fly to the moon"
    ∧ (turnRollInfo "fly to the moon" true false 4 ((⟨3, 3, 3⟩ : Stats).get .spirit)
        .spirit 5 (.bool false)).stat = .spirit
    ∧ (turnRollInfo "fly to the moon" true false 4 ((⟨3, 3, 3⟩ : Stats).get .spirit)
        .spirit 5 (.bool false)).difficulty = 5
    ∧ (turnRollInfo "fly to the moon" true false 4 ((⟨3, 3, 3⟩ : Stats).get .spirit)
        .spirit 5 (.bool false)).lethal = .bool false :=
  take_action_force_replays_remembered gInv "something else" "other" false iBody2
    iInvalid (.ret none) 4 narrOk1 "fly to the moon" ⟨3, 3, 3⟩ rfl rfl rfl
    (by decide) rfl rfl

/-- A narrator collaborator that answers `"scene1"` on forced turns and
raises otherwise; used to witness that god mode narrates with
forced = true. -/
def narrForcedProbe : NarrateArgs → Except Unit String :=
  fun a => if a.forced then .ok "scene1" else .error ()

/-- C7: with god mode on (and no applicable force replay), `take_action`
bypasses the interpreter with the synthesized spirit/1/non-lethal
interpretation, is independent of the interpreter response and of the
random draw, marks the roll record roll = 10, success = true,
died = false, and consults the narrator only at forced = true (two
narrators agreeing on forced turns yield identical results). -/
theorem take_action_god_mode (g : GameState) (action : String) (force ws : Bool)
    (i1 i2 suggResp : LLMOutcome) (r1 r2 : Int)
    (n1 n2 : NarrateArgs → Except Unit String) (st : Stats)
    (halive : g.alive = true) (hchar : optStrTruthy g.character = true)
    (hstats : g.stats = some st)
    (hnof : (force && optStrTruthy g.last_action && g.last_invalid) = false)
    (hnarr : ∀ a : NarrateArgs, a.forced = true → n1 a = n2 a) :
    take_action g action force true ws i1 r1 n1 suggResp
      = take_action g action force true ws i2 r2 n2 suggResp
    ∧ chooseInterpretation g action force true i1
        = (action, .valid .spirit 1 (.bool false))
    ∧ (take_action g action force true ws i1 r1 n1 suggResp).1.last_roll
        = some (turnRollInfo action force true r1 (st.get .spirit) .spirit 1 (.bool false))
    ∧ (turnRollInfo action force true r1 (st.get .spirit) .spirit 1 (.bool false)).roll
        = 10
    ∧ (turnRollInfo action force true r1 (st.get .spirit) .spirit 1 (.bool false)).success
        = true
    ∧ (turnRollInfo action force true r1 (st.get .spirit) .spirit 1 (.bool false)).died
        = false
    ∧ (turnRollInfo action force true r1 (st.get .spirit) .spirit 1 (.bool false)).stat
        = .spirit
    ∧ (turnRollInfo action force true r1 (st.get .spirit) .spirit 1
        (.bool false)).difficulty = 1 := by
  have hch : ∀ i : LLMOutcome, chooseInterpretation g action force true i
      = (action, .valid .spirit 1 (.bool false)) := by
    intro i
    simp [chooseInterpretation, hnof]
  have ht1 : take_action g action force true ws i1 r1 n1 suggResp
      = resolveTurn g action force true ws r1 n1 suggResp .spirit 1 (.bool false) := by
    simp [take_action, halive, hchar, hch i1]
  have ht2 : take_action g action force true ws i2 r2 n2 suggResp
      = resolveTurn g action force true ws r2 n2 suggResp .spirit 1 (.bool false) := by
    simp [take_action, halive, hchar, hch i2]
  have hres : resolveTurn g action force true ws r1 n1 suggResp .spirit 1 (.bool false)
      = resolveTurn g action force true ws r2 n2 suggResp .spirit 1 (.bool false) := by
    obtain ⟨ch, sts, ctx, al, hist, lr, la, li⟩ := g
    simp only at hstats
    subst hstats
    simp only [resolveTurn, turnRollInfo]
    simp only [Bool.or_true]
    rw [hnarr _ rfl]
    rfl
  refine ⟨?_, hch i1, ?_, rfl, rfl, rfl, rfl, rfl⟩
  · rw [ht1, ht2, hres]
  · rw [ht1]
    exact resolveTurn_last_roll g action force true ws r1 n1 suggResp .spirit 1
      (.bool false) st hstats

/-- Witness for C7 at `g0`: god mode gives the same result under the
always-answering narrator and the forced-only probe narrator. -/
theorem take_action_god_mode_witness :
    take_action g0 "fly" false true false iBody2 3 narrOk1 (.ret none)
      = take_action g0 "fly" false true false iInvalid 9 narrForcedProbe (.ret none)
    ∧ chooseInterpretation g0 "fly" false true iBody2
        = ("fly", .valid .spirit 1 (.bool false))
    ∧ (take_action g0 "fly" false true false iBody2 3 narrOk1 (.ret none)).1.last_roll
        = some (turnRollInfo "fly" false true 3 ((⟨3, 3, 3⟩ : Stats).get .spirit)
            .spirit 1 (.bool false))
    ∧ (turnRollInfo "fly" false true 3 ((⟨3, 3, 3⟩ : Stats).get .spirit)
        .spirit 1 (.bool false)).roll = 10
    ∧ (turnRollInfo "fly" false true 3 ((⟨3, 3, 3⟩ : Stats).get .spirit)
        .spirit 1 (.bool false)).success = true
    ∧ (turnRollInfo "fly" false true 3 ((⟨3, 3, 3⟩ : Stats).get .spirit)
        .spirit 1 (.bool false)).died = false
    ∧ (turnRollInfo "fly" false true 3 ((⟨3, 3, 3⟩ : Stats).get .spirit)
        .spirit 1 (.bool false)).stat = .spirit
    ∧ (turnRollInfo "fly" false true 3 ((⟨3, 3, 3⟩ : Stats).get .spirit)
        .spirit 1 (.bool false)).difficulty = 1 :=
  take_action_god_mode g0 "fly" false false iBody2 iInvalid (.ret none) 3 9
    narrOk1 narrForcedProbe ⟨3, 3, 3⟩ rfl rfl rfl rfl
    (fun a h => by simp [narrOk1, narrForcedProbe, h])

/-- A state one resolved turn deep whose character has died, used to
witness resurrection-by-undo. -/
def gDead : GameState :=
  { g0 with history := [("old", none)], alive := false }

/-- C8: `undo` on a non-empty history pops exactly the most recent
(context, outcome) frame, restores it as current and unconditionally
sets alive = true; on an empty history it returns the error
"Nothing to undo" and changes nothing. -/
theorem undo_pop_and_resurrect (g : GameState)
    (h : List (String × Option RollInfo)) (c : String) (r : Option RollInfo)
    (hh : g.history = h ++ [(c, r)]) :
    undo g = ({ g with context := c, last_roll := r, history := h, alive := true },
              .ok c r)
    ∧ ∀ g2 : GameState, g2.history = [] → undo g2 = (g2, .err "Nothing to undo") := by
  constructor
  · simp [undo, hh, List.getLast?_concat, List.dropLast_concat]
  · intro g2 hg2
    simp [undo, hg2]

/-- Witness for C8: undoing the death turn of `gDead` resurrects, and
`undo` on the fresh `g0` reports "Nothing to undo". -/
theorem undo_pop_and_resurrect_witness :
    undo gDead
      = ({ gDead with
           context := "old", last_roll := none, history := [], alive := true },
         .ok "old" none)
    ∧ undo g0 = (g0, .err "Nothing to undo") :=
  ⟨(undo_pop_and_resurrect gDead [] "old" none rfl).1,
   (undo_pop_and_resurrect gDead [] "old" none rfl).2 g0 rfl⟩

/-- The stat-validation condition of `start` (engine.py:179-182): each
stat in [1,5] and the three summing to 9. -/
def validTriple (mind body spirit : Int) : Prop :=
  (1 ≤ mind ∧ mind ≤ 5 ∧ 1 ≤ body ∧ body ≤ 5 ∧ 1 ≤ spirit ∧ spirit ≤ 5)
  ∧ mind + body + spirit = 9

/-- C9: `start` returns an error result (leaving the state unchanged)
exactly when some stat is outside [1,5] or the sum differs from 9, and
accepts every valid triple, resetting history, alive, character and
stats. -/
theorem start_validation (g : GameState) (character : String)
    (mind body spirit : Int) (scene : String) (p : Option JValue) (ws : Bool) :
    ((∃ msg, (start g character mind body spirit (.ok scene) (.ret p) ws).2 = .err msg)
      ↔ ¬ validTriple mind body spirit)
    ∧ (¬ validTriple mind body spirit →
        (start g character mind body spirit (.ok scene) (.ret p) ws).1 = g)
    ∧ (validTriple mind body spirit →
        (start g character mind body spirit (.ok scene) (.ret p) ws).1
          = { g with
              character := some character, stats := some ⟨mind, body, spirit⟩,
              context := scene, alive := true, history := [], last_roll := none }) := by
  have hgs : ∃ l, generate_suggestions (.ret p) = .ok l := by
    cases p
    · exact ⟨_, rfl⟩
    · exact ⟨_, rfl⟩
  obtain ⟨l, hl⟩ := hgs
  by_cases hr : 1 ≤ mind ∧ mind ≤ 5 ∧ 1 ≤ body ∧ body ≤ 5 ∧ 1 ≤ spirit ∧ spirit ≤ 5
  · by_cases hs : mind + body + spirit = 9
    · refine ⟨?_, ?_, ?_⟩
      · cases ws <;> simp [start, validTriple, hr, hs, hl]
      · intro hv
        exact absurd ⟨hr, hs⟩ hv
      · intro hv
        cases ws <;> simp [start, hr, hs, hl]
    · refine ⟨?_, ?_, ?_⟩
      · simp [start, validTriple, hr, hs]
      · intro hv
        simp [start, hr, hs]
      · intro hv
        exact absurd hv.2 hs
  · refine ⟨?_, ?_, ?_⟩
    · simp [start, validTriple, hr]
    · intro hv
      simp [start, hr]
    · intro hv
      exact absurd hv.1 hr

/-- Witness for C9: the valid triple (3,3,3) is installed; the invalid
triple (9,9,9) leaves the unstarted state untouched. -/
theorem start_validation_witness :
    (start GameState.init "a goblin" 3 3 3 (.ok "opening") (.ret none) false).1
      = { GameState.init with
          character := some "a goblin", stats := some ⟨3, 3, 3⟩,
          context := "opening", alive := true, history := [], last_roll := none }
    ∧ (start GameState.init "x" 9 9 9 (.ok "opening") (.ret none) false).1
        = GameState.init :=
  ⟨(start_validation GameState.init "a goblin" 3 3 3 "opening" none false).2.2
      (by constructor <;> norm_num),
   (start_validation GameState.init "x" 9 9 9 "opening" none false).2.1
      (by intro hv; exact absurd hv.1 (by norm_num))⟩

/-- Helper: the dict-values fallback always yields exactly 3 strings. -/
theorem suggestionsFromValues_length (kvs : List (String × JValue)) :
    (suggestionsFromValues kvs).length = 3 := by
  simp only [suggestionsFromValues]
  split
  · rename_i h
    simp [List.length_take]
    omega
  · rfl

/-- Helper: normalization always yields exactly 3 strings, whatever the
parsed JSON shape. -/
theorem normalizeSuggestions_length (v : JValue) :
    (normalizeSuggestions v).length = 3 := by
  cases v with
  | arr xs =>
    simp only [normalizeSuggestions]
    split
    · rename_i h
      simp [List.length_take]
      omega
    · rfl
  | obj kvs =>
    simp only [normalizeSuggestions]
    split
    · rfl
    · split
      · split
        · rename_i h
          simp [List.length_take]
          omega
        · exact suggestionsFromValues_length kvs
      · exact suggestionsFromValues_length kvs
  | null => rfl
  | bool b => rfl
  | num n => rfl
  | str s => rfl

/-- C10: whenever `generate_suggestions` returns normally its result is
exactly 3 strings; a list of 3+ items, a dict keyed "0"/"1"/"2", a dict
with a "suggestions" list of 3+, or any dict with 3+ values yields the
corresponding first three entries stringified, and every other parsed
shape or a JSON parse failure yields the constant fallback; the
normalization itself never raises (it is total, only the collaborator
call itself can raise). -/
theorem generate_suggestions_normalization (p : Option JValue) :
    (∃ l, generate_suggestions (.ret p) = .ok l ∧ l.length = 3)
    ∧ generate_suggestions (.ret none) = .ok fallbackSuggestions
    ∧ (∀ xs : List JValue, 3 ≤ xs.length →
        generate_suggestions (.ret (some (.arr xs))) = .ok ((xs.take 3).map pyStr))
    ∧ (∀ xs : List JValue, xs.length < 3 →
        generate_suggestions (.ret (some (.arr xs))) = .ok fallbackSuggestions)
    ∧ (∀ kvs v0 v1 v2, jLookup kvs "0" = some v0 → jLookup kvs "1" = some v1 →
        jLookup kvs "2" = some v2 →
        generate_suggestions (.ret (some (.obj kvs)))
          = .ok [pyStr v0, pyStr v1, pyStr v2])
    ∧ (∀ kvs sug, jLookup kvs "0" = none →
        jLookup kvs "suggestions" = some (.arr sug) → 3 ≤ sug.length →
        generate_suggestions (.ret (some (.obj kvs)))
          = .ok ((sug.take 3).map pyStr))
    ∧ (∀ kvs, jLookup kvs "0" = none → jLookup kvs "suggestions" = none →
        3 ≤ kvs.length →
        generate_suggestions (.ret (some (.obj kvs)))
          = .ok (((kvs.map Prod.snd).take 3).map pyStr))
    ∧ (∀ kvs, jLookup kvs "0" = none → jLookup kvs "suggestions" = none →
        kvs.length < 3 →
        generate_suggestions (.ret (some (.obj kvs))) = .ok fallbackSuggestions)
    ∧ (∀ s : String, generate_suggestions (.ret (some (.str s)))
        = .ok fallbackSuggestions)
    ∧ (∀ n : Int, generate_suggestions (.ret (some (.num n)))
        = .ok fallbackSuggestions) := by
  refine ⟨?_, rfl, ?_, ?_, ?_, ?_, ?_, ?_, ?_, ?_⟩
  · cases p with
    | none => exact ⟨fallbackSuggestions, rfl, rfl⟩
    | some v => exact ⟨normalizeSuggestions v, rfl, normalizeSuggestions_length v⟩
  · intro xs h
    simp [generate_suggestions, normalizeSuggestions, h]
  · intro xs h
    have h2 : ¬ 3 ≤ xs.length := by omega
    simp [generate_suggestions, normalizeSuggestions, h2]
  · intro kvs v0 v1 v2 h0 h1 h2
    simp [generate_suggestions, normalizeSuggestions, h0, h1, h2]
  · intro kvs sug h0 hsug hlen
    simp [generate_suggestions, normalizeSuggestions, h0, hsug, hlen]
  · intro kvs h0 hsug hlen
    simp [generate_suggestions, normalizeSuggestions, suggestionsFromValues,
      h0, hsug, hlen]
  · intro kvs h0 hsug hlen
    have h2 : ¬ 3 ≤ kvs.length := by omega
    simp [generate_suggestions, normalizeSuggestions, suggestionsFromValues,
      h0, hsug, h2]
  · intro s
    rfl
  · intro n
    rfl

/-- Witness for C10: a four-element array response is trimmed to its
first three entries. -/
theorem generate_suggestions_normalization_witness :
    generate_suggestions (.ret (some (.arr [.str "a", .str "b", .str "c", .str "d"])))
      = .ok (([JValue.str "a", .str "b", .str "c", .str "d"].take 3).map pyStr) :=
  (generate_suggestions_normalization
      (some (.arr [.str "a", .str "b", .str "c", .str "d"]))).2.2.1
    [.str "a", .str "b", .str "c", .str "d"] (by decide)

end RPGEngine
